import Mathlib

/-!
Verification of the per-pixel GLAD-alert RGB codec and its row-streaming
driver, shallowly embedded from `src/batch/cpp/build_rgb.cpp`.

Samples of the two input bands are `uint16_t` values; they are modelled as
`Nat` together with the bound `≤ 65535` (or an explicit `% 65536`
normalisation where a row buffer is filled).  8-bit stores are modelled by
an explicit `% 256`, matching the implicit `int → uint8_t` truncation in
the C code.  The `stoi(to_string(v).substr(1))` string manipulation is
modelled by `natToDec` (the decimal digit string, most significant digit
first, of a value below 100000 — every `uint16_t` value qualifies) together
with `stoiDigits` (parse a digit string; a parse of the empty string throws,
modelled as `none`).
-/

/-- Decimal digit list (most significant first) of a natural number below
100000, mirroring `std::to_string` on the `uint16_t` domain of the program
(a `uint16_t` is at most 65535, hence at most five digits). -/
def natToDec (n : Nat) : List Nat :=
  if n < 10 then [n]
  else if n < 100 then [n / 10, n % 10]
  else if n < 1000 then [n / 100, n / 10 % 10, n % 10]
  else if n < 10000 then [n / 1000, n / 100 % 10, n / 10 % 10, n % 10]
  else [n / 10000, n / 1000 % 10, n / 100 % 10, n / 10 % 10, n % 10]

/-- `std::stoi` on a digit string: fails (throws) on the empty string,
otherwise evaluates the digits in base 10. -/
def stoiDigits : List Nat → Option Nat
  | [] => none
  | d :: ds => some ((d :: ds).foldl (fun a d => 10 * a + d) 0)

/-- The `total_days` computation of `build_rgb.cpp` (lines 85–92):
`0` below 20000, `alert − 20000` in `[20000, 30000)`, `alert − 30000`
from 30000 on. -/
def total_days (alert : Nat) : Nat :=
  if alert < 20000 then 0
  else if alert < 30000 then alert - 20000
  else alert - 30000

/-- The per-pixel transform of `build_rgb.cpp` (lines 85–109): from a
band-1 sample `alert` and a band-2 sample `intensity` (both `uint16_t`)
produce the three output bytes `(out_data1, out_data2, out_data3)`.
`none` models the `std::invalid_argument` thrown by `stoi` on an empty
string (the whole program would abort). -/
def encode (alert intensity : Nat) : Option (Nat × Nat × Nat) :=
  let out1 := total_days alert / 255 % 256
  if alert < 20000 then
    some (out1, 0, intensity % 256)
  else
    match stoiDigits ((natToDec alert).drop 1) with
    | none => none
    | some v =>
      let out2 := v % 255 % 256
      let out3 :=
        if 20000 ≤ alert ∧ alert ≤ 29999 then (100 + intensity) % 256
        else (200 + intensity) % 256
      some (out1, out2, out3)

/-- On the alert branch (`alert ≥ 20000`, within the `uint16_t` range) the
decimal string has five digits, and dropping the leading digit and parsing
yields `alert % 10000`. -/
lemma stoiDigits_drop_one {alert : Nat} (h1 : 20000 ≤ alert) (h2 : alert ≤ 65535) :
    (natToDec alert).length = 5 ∧
      stoiDigits ((natToDec alert).drop 1) = some (alert % 10000) := by
  have hten : ¬ alert < 10 := by omega
  have hhun : ¬ alert < 100 := by omega
  have htho : ¬ alert < 1000 := by omega
  have httho : ¬ alert < 10000 := by omega
  rw [natToDec]
  simp only [if_neg hten, if_neg hhun, if_neg htho, if_neg httho]
  refine ⟨rfl, ?_⟩
  simp only [List.drop_succ_cons, List.drop_zero, stoiDigits, List.foldl,
    Option.some.injEq]
  omega

example : encode 0 5 = some (0, 0, 5) := by decide
example : encode 20100 10 = some (0, 100, 110) := by decide
example : encode 30300 0 = some (1, 45, 200) := by decide
example : encode 25500 0 = some (21, 145, 100) := by decide
example : encode 40000 0 = some (39, 0, 200) := by decide

/-- Unfolding of `encode` on the alert branch (`alert ≥ 20000`): the string
manipulation contributes `alert % 10000`. -/
lemma encode_alert {alert : Nat} (i : Nat) (h1 : 20000 ≤ alert) (h2 : alert ≤ 65535) :
    encode alert i =
      some (total_days alert / 255 % 256, alert % 10000 % 255 % 256,
        if 20000 ≤ alert ∧ alert ≤ 29999 then (100 + i) % 256
        else (200 + i) % 256) := by
  have hlt : ¬ alert < 20000 := by omega
  rw [encode]
  simp only [if_neg hlt, (stoiDigits_drop_one h1 h2).2]

lemma total_days_classA {alert : Nat} (h1 : 20000 ≤ alert) (h2 : alert < 30000) :
    total_days alert = alert - 20000 := by
  rw [total_days, if_neg (show ¬ alert < 20000 by omega), if_pos h2]

lemma total_days_classB {alert : Nat} (h1 : 30000 ≤ alert) :
    total_days alert = alert - 30000 := by
  rw [total_days, if_neg (show ¬ alert < 20000 by omega),
    if_neg (show ¬ alert < 30000 by omega)]

/-- C1: on the intended alert ranges the codec produces exactly the bytes
the spec lists: for `alert ∈ [20000, 29999]` the triple
`((alert − 20000) / 255, (alert − 20000) mod 255, (100 + intensity) mod 256)`,
and for `alert ∈ [30000, 39999]` the triple
`((alert − 30000) / 255, (alert − 30000) mod 255, (200 + intensity) mod 256)`
(wraparound on intensity overflow, not saturation). -/
theorem encode_inRange_spec (alert intensity : Nat) (hi : intensity ≤ 65535) :
    (20000 ≤ alert → alert ≤ 29999 →
      encode alert intensity =
        some ((alert - 20000) / 255, (alert - 20000) % 255,
          (100 + intensity) % 256)) ∧
    (30000 ≤ alert → alert ≤ 39999 →
      encode alert intensity =
        some ((alert - 30000) / 255, (alert - 30000) % 255,
          (200 + intensity) % 256)) := by
  constructor
  · intro h1 h2
    rw [encode_alert intensity h1 (by omega), total_days_classA h1 (by omega),
      if_pos ⟨h1, h2⟩,
      show (alert - 20000) / 255 % 256 = (alert - 20000) / 255 by omega,
      show alert % 10000 % 255 % 256 = (alert - 20000) % 255 by omega]
  · intro h1 h2
    rw [encode_alert intensity (by omega) (by omega), total_days_classB h1,
      if_neg (show ¬ (20000 ≤ alert ∧ alert ≤ 29999) by omega),
      show (alert - 30000) / 255 % 256 = (alert - 30000) / 255 by omega,
      show alert % 10000 % 255 % 256 = (alert - 30000) % 255 by omega]

/-- Witness for C1 at `alert = 20100, intensity = 10` (class A) and
`alert = 30300, intensity = 7` (class B). -/
theorem encode_inRange_spec_witness :
    encode 20100 10 =
      some ((20100 - 20000) / 255, (20100 - 20000) % 255, (100 + 10) % 256) ∧
    encode 30300 7 =
      some ((30300 - 30000) / 255, (30300 - 30000) % 255, (200 + 7) % 256) :=
  ⟨(encode_inRange_spec 20100 10 (by decide)).1 (by decide) (by decide),
   (encode_inRange_spec 30300 7 (by decide)).2 (by decide) (by decide)⟩

/-- C2: below 20000 the codec takes the distinct no-alert passthrough
branch: day and confidence bytes are `0` and the raw intensity is
propagated, truncated to 8 bits, with no confidence-class offset. -/
theorem encode_noAlert_passthrough (alert intensity : Nat)
    (h : alert < 20000) (hi : intensity ≤ 65535) :
    encode alert intensity = some (0, 0, intensity % 256) := by
  rw [encode]
  have htd : total_days alert = 0 := by rw [total_days, if_pos h]
  simp only [if_pos h, htd]

/-- Witness for C2 at `alert = 19999, intensity = 300`. -/
theorem encode_noAlert_passthrough_witness :
    encode 19999 300 = some (0, 0, 300 % 256) :=
  encode_noAlert_passthrough 19999 300 (by decide) (by decide)

/-- C3 counterexample: at `alert = 40000, intensity = 0` the claim predicts
`confidenceByte = (40000 − 30000) mod 255 = 55`, but the program writes
`confidenceByte = 0` (the string path reduces `alert mod 10000 = 0`). -/
theorem classB_conf_counterexample :
    encode 40000 0 = some (39, 0, 200) ∧ (40000 - 30000) % 255 ≠ 0 := by
  decide

/-- C3 amended: for every 16-bit `alert ≥ 30000` the pixel is class B with
`dayOffset = alert − 30000`, `dayByte = dayOffset / 255` and
`intensityByte = (200 + intensity) mod 256`, but
`confidenceByte = (dayOffset mod 10000) mod 255` — equal to
`dayOffset mod 255` only while `alert ≤ 39999`. -/
theorem classB_full_range_encode (alert intensity : Nat)
    (h1 : 30000 ≤ alert) (h2 : alert ≤ 65535) (hi : intensity ≤ 65535) :
    encode alert intensity =
      some ((alert - 30000) / 255, (alert - 30000) % 10000 % 255,
        (200 + intensity) % 256) := by
  rw [encode_alert intensity (by omega) h2, total_days_classB h1,
    if_neg (show ¬ (20000 ≤ alert ∧ alert ≤ 29999) by omega),
    show (alert - 30000) / 255 % 256 = (alert - 30000) / 255 by omega,
    show alert % 10000 % 255 % 256 = (alert - 30000) % 10000 % 255 by omega]

/-- Witness for the amended C3 at `alert = 41000, intensity = 3`. -/
theorem classB_full_range_encode_witness :
    encode 41000 3 =
      some ((41000 - 30000) / 255, (41000 - 30000) % 10000 % 255,
        (200 + 3) % 256) :=
  classB_full_range_encode 41000 3 (by decide) (by decide) (by decide)

/-- C4 counterexample: at `alert = 40000, intensity = 0` the claim predicts
`dayByte = ((40000 − 30000) mod 10000) / 255 = 0`, but the program writes
`dayByte = 39` (the day byte is computed from the unreduced difference). -/
theorem classB_overflow_day_counterexample :
    encode 40000 0 = some (39, 0, 200) ∧ (40000 - 30000) % 10000 / 255 ≠ 39 := by
  decide

/-- C4 amended: for every 16-bit `alert > 39999` the pixel is treated as
class B; `confidenceByte = ((alert − 30000) mod 10000) mod 255` as claimed,
but `dayByte = (alert − 30000) / 255` — the day offset is NOT reduced
mod 10000 for the day byte, only the string-derived confidence byte is. -/
theorem encode_above_39999 (alert intensity : Nat)
    (h1 : 39999 < alert) (h2 : alert ≤ 65535) (hi : intensity ≤ 65535) :
    encode alert intensity =
      some ((alert - 30000) / 255, (alert - 30000) % 10000 % 255,
        (200 + intensity) % 256) := by
  rw [encode_alert intensity (by omega) h2, total_days_classB (by omega),
    if_neg (show ¬ (20000 ≤ alert ∧ alert ≤ 29999) by omega),
    show (alert - 30000) / 255 % 256 = (alert - 30000) / 255 by omega,
    show alert % 10000 % 255 % 256 = (alert - 30000) % 10000 % 255 by omega]

/-- Witness for the amended C4 at `alert = 65535, intensity = 1`. -/
theorem encode_above_39999_witness :
    encode 65535 1 =
      some ((65535 - 30000) / 255, (65535 - 30000) % 10000 % 255,
        (200 + 1) % 256) :=
  encode_above_39999 65535 1 (by decide) (by decide) (by decide)

/-- The string-manipulation derivation of the confidence byte as the source
computes it (`build_rgb.cpp` line 101): render the alert value in decimal,
drop the first character, parse the remainder, reduce mod 255. -/
def confidenceByteStr (alert : Nat) : Option Nat :=
  (stoiDigits ((natToDec alert).drop 1)).map (fun v => v % 255)

/-- The integer-arithmetic confidence byte following the spec's words
(§4.1): `dayOffset mod 255`, where `dayOffset = alert − 20000` on
`[20000, 29999]` and `alert − 30000` on `[30000, 39999]`.  Stated for the
refinement comparison with `confidenceByteStr`. -/
def confidenceByteInt (alert : Nat) : Nat :=
  if alert ≤ 29999 then (alert - 20000) % 255 else (alert - 30000) % 255

/-- C5: on the intended input range `[20000, 39999]` the string path and
the integer-arithmetic path agree: dropping the leading decimal digit and
parsing recovers the day offset, so both reduce to the same byte mod 255. -/
theorem string_int_conf_equiv (alert : Nat)
    (h1 : 20000 ≤ alert) (h2 : alert ≤ 39999) :
    confidenceByteStr alert = some (confidenceByteInt alert) := by
  rw [confidenceByteStr, (stoiDigits_drop_one h1 (by omega)).2, Option.map_some',
    confidenceByteInt]
  by_cases hc : alert ≤ 29999
  · rw [if_pos hc]
    exact congrArg some (by omega)
  · rw [if_neg hc]
    exact congrArg some (by omega)

/-- Witness for C5 at `alert = 31234`. -/
theorem string_int_conf_equiv_witness :
    confidenceByteStr 31234 = some (confidenceByteInt 31234) :=
  string_int_conf_equiv 31234 (by decide) (by decide)

/-- C9: on the alert branch (`20000 ≤ alert ≤ 65535`) the decimal
representation has exactly 5 digits, so dropping the first character and
parsing never fails and yields `alert mod 10000`. -/
theorem alert_decimal_five_digits (alert : Nat)
    (h1 : 20000 ≤ alert) (h2 : alert ≤ 65535) :
    (natToDec alert).length = 5 ∧
      stoiDigits ((natToDec alert).drop 1) = some (alert % 10000) :=
  stoiDigits_drop_one h1 h2

/-- Witness for C9 at `alert = 20000`. -/
theorem alert_decimal_five_digits_witness :
    (natToDec 20000).length = 5 ∧
      stoiDigits ((natToDec 20000).drop 1) = some (20000 % 10000) :=
  alert_decimal_five_digits 20000 (by decide) (by decide)

/-- C10: for every pair of 16-bit input samples the confidence byte lies
in `[0, 254]`; the value 255 never appears in output band 2. -/
theorem conf_byte_le_254 (alert intensity : Nat)
    (h : alert ≤ 65535) (hi : intensity ≤ 65535) :
    ∃ t, encode alert intensity = some t ∧ t.2.1 ≤ 254 := by
  by_cases hlt : alert < 20000
  · exact ⟨_, encode_noAlert_passthrough alert intensity hlt hi, by
      show (0 : Nat) ≤ 254
      omega⟩
  · exact ⟨_, encode_alert intensity (by omega) h, by
      show alert % 10000 % 255 % 256 ≤ 254
      omega⟩

/-- Witness for C10 at `alert = 25499, intensity = 500`. -/
theorem conf_byte_le_254_witness :
    ∃ t, encode 25499 500 = some t ∧ t.2.1 ≤ 254 :=
  conf_byte_le_254 25499 500 (by decide) (by decide)

/-- Result of one `RasterIO` call on an input band: the `CPLErr` status of
the call (which the program discards) together with the contents of the row
buffer after the call. -/
structure RowIOResult where
  err : Bool
  data : List Nat
deriving DecidableEq

/-- `uint16_t` buffer cell: samples are stored truncated to 16 bits. -/
def asU16 (n : Nat) : Nat := n % 65536

/-- Observable events of the row loop of `build_rgb.cpp` (lines 80–114):
one read per input band per row and one write per output band per row, each
carrying the row data and the error status returned by the Source / Sink
(the program ignores that status). -/
inductive Event where
  | read : Nat → Nat → Bool → Event
  | write : Nat → Nat → List Nat → Bool → Event
deriving DecidableEq

/-- The inner `x` loop (lines 83–111): apply the per-pixel transform across
the two input row buffers, producing one row of each output band.  `none`
propagates a `stoi` exception (which would abort the program). -/
def processRow (row1 row2 : List Nat) : Option (List Nat × List Nat × List Nat) :=
  match (List.zip row1 row2).mapM (fun p => encode p.1 p.2) with
  | none => none
  | some ts =>
    some (ts.map (fun t => t.1), ts.map (fun t => t.2.1), ts.map (fun t => t.2.2))

/-- One iteration of the `y` loop: read row `y` of both input bands,
transform it, write row `y` of the three output bands.  The error statuses
are recorded in the trace but do not influence control flow, exactly as in
the source, where the `RasterIO` return values are discarded. -/
def rowStep (src : Nat → Nat → RowIOResult) (snk : Nat → Nat → Bool) (y : Nat) :
    Option (List Event) :=
  let r1 := src 1 y
  let r2 := src 2 y
  match processRow (r1.data.map asU16) (r2.data.map asU16) with
  | none => none
  | some t =>
    some [Event.read 1 y r1.err, Event.read 2 y r2.err,
      Event.write 1 y t.1 (snk 1 y), Event.write 2 y t.2.1 (snk 2 y),
      Event.write 3 y t.2.2 (snk 3 y)]

/-- The `y` loop itself: process rows `0 .. H−1` in increasing order,
accumulating the I/O trace. -/
def driverTrace (src : Nat → Nat → RowIOResult) (snk : Nat → Nat → Bool) :
    Nat → Option (List Event)
  | 0 => some []
  | n + 1 =>
    match driverTrace src snk n, rowStep src snk n with
    | some tr, some es => some (tr ++ es)
    | _, _ => none

/-- Row indices of the read events of band `b`, in trace order. -/
def readRowsOf (b : Nat) (tr : List Event) : List Nat :=
  tr.filterMap (fun e => match e with
    | Event.read b2 y _ => if b2 = b then some y else none
    | Event.write _ _ _ _ => none)

/-- Row indices of the write events of band `b`, in trace order. -/
def writeRowsOf (b : Nat) (tr : List Event) : List Nat :=
  tr.filterMap (fun e => match e with
    | Event.read _ _ _ => none
    | Event.write b2 y _ _ => if b2 = b then some y else none)

lemma encode_isSome (a i : Nat) : (encode a i).isSome := by
  rw [encode]
  by_cases h : a < 20000
  · rw [if_pos h]; rfl
  · rw [if_neg h, natToDec, if_neg (show ¬ a < 10 by omega),
      if_neg (show ¬ a < 100 by omega), if_neg (show ¬ a < 1000 by omega),
      if_neg (show ¬ a < 10000 by omega)]
    rfl

lemma mapM_encode_isSome (l : List (Nat × Nat)) :
    ∃ ts, l.mapM (fun p => encode p.1 p.2) = some ts := by
  induction l with
  | nil => exact ⟨[], rfl⟩
  | cons p tl ih =>
    obtain ⟨ts, hts⟩ := ih
    obtain ⟨t, ht⟩ := Option.isSome_iff_exists.mp (encode_isSome p.1 p.2)
    exact ⟨t :: ts, by rw [List.mapM_cons, ht, hts]; rfl⟩

lemma processRow_eq (row1 row2 : List Nat) :
    ∃ o1 o2 o3, processRow row1 row2 = some (o1, o2, o3) := by
  obtain ⟨ts, hts⟩ := mapM_encode_isSome (List.zip row1 row2)
  exact ⟨_, _, _, by rw [processRow, hts]⟩

lemma readRowsOf_append (b : Nat) (t1 t2 : List Event) :
    readRowsOf b (t1 ++ t2) = readRowsOf b t1 ++ readRowsOf b t2 :=
  List.filterMap_append ..

lemma writeRowsOf_append (b : Nat) (t1 t2 : List Event) :
    writeRowsOf b (t1 ++ t2) = writeRowsOf b t1 ++ writeRowsOf b t2 :=
  List.filterMap_append ..

lemma rowStep_eq (src : Nat → Nat → RowIOResult) (snk : Nat → Nat → Bool)
    (y : Nat) :
    ∃ o1 o2 o3,
      processRow ((src 1 y).data.map asU16) ((src 2 y).data.map asU16) =
        some (o1, o2, o3) ∧
      rowStep src snk y =
        some [Event.read 1 y (src 1 y).err, Event.read 2 y (src 2 y).err,
          Event.write 1 y o1 (snk 1 y), Event.write 2 y o2 (snk 2 y),
          Event.write 3 y o3 (snk 3 y)] := by
  obtain ⟨o1, o2, o3, h⟩ := processRow_eq ((src 1 y).data.map asU16)
    ((src 2 y).data.map asU16)
  refine ⟨o1, o2, o3, h, ?_⟩
  rw [rowStep]
  simp only [h]

/-- The full behaviour of the row loop: it always succeeds, visits rows
`0 .. H−1` exactly once each, in increasing order, on every band, and row
`y` of the output is the per-pixel transform of row `y` of the inputs. -/
lemma driverTrace_spec (src : Nat → Nat → RowIOResult) (snk : Nat → Nat → Bool)
    (H : Nat) :
    ∃ tr, driverTrace src snk H = some tr ∧
      readRowsOf 1 tr = List.range H ∧ readRowsOf 2 tr = List.range H ∧
      writeRowsOf 1 tr = List.range H ∧ writeRowsOf 2 tr = List.range H ∧
      writeRowsOf 3 tr = List.range H ∧
      ∀ y, y < H → ∃ o1 o2 o3,
        processRow ((src 1 y).data.map asU16) ((src 2 y).data.map asU16) =
          some (o1, o2, o3) ∧
        Event.read 1 y (src 1 y).err ∈ tr ∧ Event.read 2 y (src 2 y).err ∈ tr ∧
        Event.write 1 y o1 (snk 1 y) ∈ tr ∧ Event.write 2 y o2 (snk 2 y) ∈ tr ∧
        Event.write 3 y o3 (snk 3 y) ∈ tr := by
  induction H with
  | zero =>
    refine ⟨[], rfl, ?_, ?_, ?_, ?_, ?_, ?_⟩ <;>
      simp [readRowsOf, writeRowsOf]
  | succ n ih =>
    obtain ⟨tr, htr, hr1, hr2, hw1, hw2, hw3, hmem⟩ := ih
    obtain ⟨o1, o2, o3, hpr, hstep⟩ := rowStep_eq src snk n
    refine ⟨tr ++ [Event.read 1 n (src 1 n).err, Event.read 2 n (src 2 n).err,
      Event.write 1 n o1 (snk 1 n), Event.write 2 n o2 (snk 2 n),
      Event.write 3 n o3 (snk 3 n)], ?_, ?_, ?_, ?_, ?_, ?_, ?_⟩
    · rw [driverTrace, htr, hstep]
    · rw [readRowsOf_append, hr1, List.range_succ]
      simp [readRowsOf]
    · rw [readRowsOf_append, hr2, List.range_succ]
      simp [readRowsOf]
    · rw [writeRowsOf_append, hw1, List.range_succ]
      simp [writeRowsOf]
    · rw [writeRowsOf_append, hw2, List.range_succ]
      simp [writeRowsOf]
    · rw [writeRowsOf_append, hw3, List.range_succ]
      simp [writeRowsOf]
    · intro y hy
      rcases Nat.lt_succ_iff_lt_or_eq.mp hy with h | h
      · obtain ⟨p1, p2, p3, hq, m1, m2, m3, m4, m5⟩ := hmem y h
        exact ⟨p1, p2, p3, hq, List.mem_append_left _ m1,
          List.mem_append_left _ m2, List.mem_append_left _ m3,
          List.mem_append_left _ m4, List.mem_append_left _ m5⟩
      · subst h
        exact ⟨o1, o2, o3, hpr, List.mem_append_right _ (by simp),
          List.mem_append_right _ (by simp), List.mem_append_right _ (by simp),
          List.mem_append_right _ (by simp), List.mem_append_right _ (by simp)⟩

/-- C6: for a raster of width `W ≥ 1` and any height `H`, the driver issues
exactly `H` row-read pairs and `H` row-write triples, for rows
`0 .. H−1` in strictly increasing order (`List.range H`), with no row
skipped or repeated, and the data written for row `y` is the per-pixel
transform of row `y` of the two input bands. -/
theorem driver_rows_exact (src : Nat → Nat → RowIOResult)
    (snk : Nat → Nat → Bool) (W H : Nat) (hW : 1 ≤ W)
    (hlen : ∀ y, y < H → (src 1 y).data.length = W ∧ (src 2 y).data.length = W) :
    ∃ tr, driverTrace src snk H = some tr ∧
      readRowsOf 1 tr = List.range H ∧ readRowsOf 2 tr = List.range H ∧
      writeRowsOf 1 tr = List.range H ∧ writeRowsOf 2 tr = List.range H ∧
      writeRowsOf 3 tr = List.range H ∧
      ∀ y, y < H → ∃ o1 o2 o3,
        processRow ((src 1 y).data.map asU16) ((src 2 y).data.map asU16) =
          some (o1, o2, o3) ∧
        Event.write 1 y o1 (snk 1 y) ∈ tr ∧ Event.write 2 y o2 (snk 2 y) ∈ tr ∧
        Event.write 3 y o3 (snk 3 y) ∈ tr := by
  obtain ⟨tr, htr, hr1, hr2, hw1, hw2, hw3, hmem⟩ := driverTrace_spec src snk H
  refine ⟨tr, htr, hr1, hr2, hw1, hw2, hw3, fun y hy => ?_⟩
  obtain ⟨o1, o2, o3, hq, _, _, m3, m4, m5⟩ := hmem y hy
  exact ⟨o1, o2, o3, hq, m3, m4, m5⟩

/-- A constant one-pixel Source used to witness the driver theorems. -/
def srcConst : Nat → Nat → RowIOResult := fun _ _ => ⟨false, [20100]⟩

/-- A Sink whose writes all succeed. -/
def snkOk : Nat → Nat → Bool := fun _ _ => false

/-- Witness for C6 on a 1×1 raster. -/
theorem driver_rows_exact_witness :
    ∃ tr, driverTrace srcConst snkOk 1 = some tr ∧
      readRowsOf 1 tr = List.range 1 ∧ readRowsOf 2 tr = List.range 1 ∧
      writeRowsOf 1 tr = List.range 1 ∧ writeRowsOf 2 tr = List.range 1 ∧
      writeRowsOf 3 tr = List.range 1 ∧
      ∀ y, y < 1 → ∃ o1 o2 o3,
        processRow ((srcConst 1 y).data.map asU16)
            ((srcConst 2 y).data.map asU16) = some (o1, o2, o3) ∧
        Event.write 1 y o1 (snkOk 1 y) ∈ tr ∧
        Event.write 2 y o2 (snkOk 2 y) ∈ tr ∧
        Event.write 3 y o3 (snkOk 3 y) ∈ tr :=
  driver_rows_exact srcConst snkOk 1 1 (by decide)
    (fun y _ => ⟨rfl, rfl⟩)

/-- A Source whose reads of row 0 fail (and return a zero sample). -/
def srcFailRow0 : Nat → Nat → RowIOResult := fun _ y => ⟨y == 0, [0]⟩

/-- C7 counterexample: on a 2-row raster whose row-0 reads fail, the driver
nevertheless reads and writes row 1 — it does not stop processing further
rows after a failed read (the `RasterIO` statuses are discarded). -/
theorem driver_fatal_error_counterexample :
    (srcFailRow0 1 0).err = true ∧
    driverTrace srcFailRow0 snkOk 2 =
      some [Event.read 1 0 true, Event.read 2 0 true,
        Event.write 1 0 [0] false, Event.write 2 0 [0] false,
        Event.write 3 0 [0] false,
        Event.read 1 1 false, Event.read 2 1 false,
        Event.write 1 1 [0] false, Event.write 2 1 [0] false,
        Event.write 3 1 [0] false] := by
  decide

/-- C7 amended: the driver discards the error statuses returned by the
Source and the Sink: it never retries and never skips, and it processes all
`H` rows — reading and writing every row index in `0 .. H−1` — no matter
which reads or writes fail. -/
theorem driver_continues_after_error (src : Nat → Nat → RowIOResult)
    (snk : Nat → Nat → Bool) (H : Nat) :
    ∃ tr, driverTrace src snk H = some tr ∧
      readRowsOf 1 tr = List.range H ∧ readRowsOf 2 tr = List.range H ∧
      writeRowsOf 1 tr = List.range H ∧ writeRowsOf 2 tr = List.range H ∧
      writeRowsOf 3 tr = List.range H := by
  obtain ⟨tr, htr, hr1, hr2, hw1, hw2, hw3, _⟩ := driverTrace_spec src snk H
  exact ⟨tr, htr, hr1, hr2, hw1, hw2, hw3⟩

/-- The geotransform passed to the Sink (`build_rgb.cpp` lines 47–48
and 67): `{ ulx, pixelsize, 0, uly, 0, -1*pixelsize }`, where
`ulx = GeoTransform[0]`, `uly = GeoTransform[3]` and
`pixelsize = GeoTransform[1]` are read from the alert raster.  The IEEE
doubles are modelled as rationals: the program only copies coefficients
and negates one, operations that are exact on doubles. -/
def adfGeoTransform (gt : Fin 6 → ℚ) : Fin 6 → ℚ
  | 0 => gt 0
  | 1 => gt 1
  | 2 => 0
  | 3 => gt 3
  | 4 => 0
  | 5 => -1 * gt 1

/-- The EPSG code imported for the output spatial reference (line 66):
Web Mercator, with no reprojection of pixel data anywhere in the program. -/
def outputEPSG : Nat := 3857

/-- An input geotransform with a nonzero row-rotation coefficient. -/
def gtSkew : Fin 6 → ℚ
  | 0 => 0
  | 1 => 1
  | 2 => 1
  | 3 => 0
  | 4 => 0
  | 5 => -1

/-- C8 counterexample: the output geotransform is not a copy of all six
input coefficients — for an input with rotation coefficient `1` the output
carries `0` in that slot. -/
theorem geotransform_copy_counterexample :
    adfGeoTransform gtSkew 2 ≠ gtSkew 2 := by decide

/-- C8 amended: the output keeps the input's origin (`gt 0`, `gt 3`) and
x pixel size (`gt 1`), but zeroes both rotation coefficients and forces the
y pixel size to `−1 * gt 1` regardless of the input's values — so the six
coefficients are all copied only when the input already has that shape —
and the declared output spatial reference is fixed to EPSG:3857. -/
theorem geotransform_output_form (gt : Fin 6 → ℚ) :
    adfGeoTransform gt 0 = gt 0 ∧ adfGeoTransform gt 1 = gt 1 ∧
    adfGeoTransform gt 3 = gt 3 ∧ adfGeoTransform gt 2 = 0 ∧
    adfGeoTransform gt 4 = 0 ∧ adfGeoTransform gt 5 = -1 * gt 1 ∧
    outputEPSG = 3857 ∧
    (gt 2 = 0 → gt 4 = 0 → gt 5 = -1 * gt 1 →
      ∀ i, adfGeoTransform gt i = gt i) := by
  refine ⟨rfl, rfl, rfl, rfl, rfl, rfl, rfl, fun h2 h4 h5 i => ?_⟩
  fin_cases i <;> simp [adfGeoTransform, h2, h4, h5]
